import Mathlib

/-!
Shallow embedding of the balance-settlement and stock-allocation core of the
Mub_log marketplace backend, together with proofs about it.

The primary source is `src/server.js` (the MongoDB-backed variant): the product
purchase flow (`processPurchase`), the SMS order lifecycle
(`/api/sms/order`, `/api/sms/check/:orderId`, `/api/sms/cancel/:orderId`, the
auto-refund timer callback), the SMM order flow (`/api/smm/order`) and payment
verification (`/api/auth/verify-payment`).  The MySQL-backed purchase variant
(`src/routes/products.js`, route 7 `/purchase`) is embedded separately because
its delivery logic (line popping) differs.

Money values are JavaScript numbers in the source; they are modelled as `ℚ`.
Document ids (`_id`) are modelled as `Nat`; the `toObjectId` normalisation
helpers of the source are identity under this modelling.  `updateOne` on an
`_id` key is modelled as a map that rewrites the matching record(s).
-/

namespace MubLog

/-! ## Data model (MongoDB variant, `src/server.js`) -/

/-- A `users` document: `insertOne` in the register route stores
`username`, `email`, `password`, `balance`, `role`.  Only the fields the
settlement flows read are kept. -/
structure User where
  uid : Nat
  username : String
  balance : ℚ
  deriving DecidableEq, Repr

/-- A `products` document as read by `processPurchase`
(`src/server.js` lines 445-494): `price`, `stock`, `credentials`,
`public_link`, `name`. -/
structure Product where
  pid : Nat
  name : String
  price : ℚ
  stock : Int
  credentials : String
  publicLink : String
  deriving DecidableEq, Repr

/-- An `orders` document as inserted by `processPurchase` (lines 472-482)
and by the SMM order route (lines 1100-1110). -/
structure OrderRec where
  userId : Nat
  username : String
  productName : String
  price : ℚ
  productLink : String
  details : String
  otype : String
  ostatus : String
  deriving DecidableEq, Repr

/-- An `sms_orders` document as inserted by the SMS order route
(lines 778-790).  `expiresAt` is the `expires_at` timestamp in ms. -/
structure SmsOrder where
  soid : Nat
  userId : Nat
  service : String
  country : String
  oper : String
  phone : String
  price : ℚ
  activationId : String
  status : String
  smsCode : Option String
  expiresAt : Nat
  deriving DecidableEq, Repr

/-- A `transactions` document as inserted by `/api/auth/verify-payment`
(lines 972-978). -/
structure Txn where
  userId : Nat
  transactionId : String
  amount : ℚ
  status : String
  deriving DecidableEq, Repr

/-- The database state of the MongoDB variant: the collections the
settlement flows touch, plus the insertion counter of the in-memory
fallback store (`InMemoryCollection.counter`), which supplies
`insertedId` values. -/
structure DB where
  users : List User
  products : List Product
  orders : List OrderRec
  smsOrders : List SmsOrder
  transactions : List Txn
  nextId : Nat
  deriving DecidableEq, Repr

/-- JavaScript whitespace (the characters occurring in this code base's
payloads); used to model `String.prototype.trim`. -/
def isWs (c : Char) : Bool := c == ' ' || c == '\t' || c == '\n' || c == '\r'

/-- JavaScript `s.trim() === ''`: every character is whitespace. -/
def isBlank (s : String) : Bool := s.toList.all isWs

def splitNlAux : List Char → List Char → List String
  | [], acc => [String.mk acc.reverse]
  | c :: rest, acc =>
    if c == '\n' then String.mk acc.reverse :: splitNlAux rest []
    else splitNlAux rest (c :: acc)

/-- JavaScript `s.split('\n')` (empty segments preserved). -/
def splitNl (s : String) : List String := splitNlAux s.toList []

/-- JavaScript `lines.join('\n')`. -/
def joinNl : List String → String
  | [] => ""
  | [s] => s
  | s :: rest => s ++ "\n" ++ joinNl rest

/-- JavaScript `s.substring(0, n)`. -/
def takeChars (n : Nat) (s : String) : String := String.mk (s.toList.take n)

/-- Models `findOne \x7b _id: k \x7d`: first record whose key matches. -/
def findBy {α : Type} (key : α → Nat) (l : List α) (k : Nat) : Option α :=
  l.find? (fun a => key a == k)

/-- Models `updateOne \x7b _id: k \x7d`: rewrite the record(s) whose key matches.
In the source `_id` is unique, so rewriting every match coincides with
updating the one matching document. -/
def updBy {α : Type} (key : α → Nat) (l : List α) (k : Nat) (f : α → α) : List α :=
  l.map (fun a => if key a == k then f a else a)

def findUser (st : DB) (uid : Nat) : Option User := findBy User.uid st.users uid

def findProduct (st : DB) (pid : Nat) : Option Product := findBy Product.pid st.products pid

def findSms (st : DB) (oid : Nat) : Option SmsOrder := findBy SmsOrder.soid st.smsOrders oid

/-- Models `users.updateOne(\x7b _id \x7d, \x7b $inc: \x7b balance: d \x7d \x7d)`. -/
def incBalance (st : DB) (uid : Nat) (d : ℚ) : DB :=
  { st with users := updBy User.uid st.users uid (fun u => { u with balance := u.balance + d }) }

/-- Models `products.updateOne(\x7b _id \x7d, \x7b $inc: \x7b stock: -1 \x7d \x7d)`. -/
def decStock (st : DB) (pid : Nat) : DB :=
  { st with products := updBy Product.pid st.products pid (fun p => { p with stock := p.stock - 1 }) }

/-- Models `sms_orders.updateOne(\x7b _id \x7d, \x7b $set: ... \x7d)`. -/
def setSms (st : DB) (oid : Nat) (f : SmsOrder → SmsOrder) : DB :=
  { st with smsOrders := updBy SmsOrder.soid st.smsOrders oid f }

/-- Models `orders.insertOne`. -/
def insertOrder (st : DB) (o : OrderRec) : DB :=
  { st with orders := st.orders ++ [o] }

/-- Models `sms_orders.insertOne`, returning `insertedId` like the in-memory
fallback store does (counter value, then counter incremented). -/
def insertSms (st : DB) (mk : Nat → SmsOrder) : Nat × DB :=
  (st.nextId, { st with smsOrders := st.smsOrders ++ [mk st.nextId], nextId := st.nextId + 1 })

/-- Models `transactions.insertOne`. -/
def insertTxn (st : DB) (t : Txn) : DB :=
  { st with transactions := st.transactions ++ [t] }

/-- Balance of a user id in a state, when the user exists. -/
def userBal (st : DB) (uid : Nat) : Option ℚ := (findUser st uid).map User.balance

/-! ## Pricing converter

`src/server.js` lines 659-661 (order route) and 602-604 (live-config route):
`priceInNGN = cost * EXCHANGE_RATE`;
`finalPrice = Math.ceil(priceInNGN * (1 + MARKUP_PERCENTAGE / 100))`. -/

def smsFinalPrice (cost rate markup : ℚ) : ℤ :=
  ⌈cost * rate * (1 + markup / 100)⌉

/-! ## Product purchase (MongoDB variant)

`src/server.js` lines 390-494: the route resolves the product, then the user
(`purchaseProduct`), then `processPurchase` validates balance and stock and
applies the three mutations.  The string-id fallback re-lookups are identity
under `Nat` ids. -/

inductive PurchaseRes where
  | productNotFound
  | userNotFound
  | insufficientBalance (need avail : ℚ)
  | outOfStock
  | success (details : String)
  deriving DecidableEq, Repr

def PurchaseRes.isSuccess : PurchaseRes → Bool
  | .success _ => true
  | _ => false

def purchase (st : DB) (userId productId : Nat) : PurchaseRes × DB :=
  match findProduct st productId with
  | none => (.productNotFound, st)
  | some product =>
    match findUser st userId with
    | none => (.userNotFound, st)
    | some user =>
      if user.balance < product.price then
        (.insufficientBalance product.price user.balance, st)
      else if product.stock < 1 then
        (.outOfStock, st)
      else
        let st1 := incBalance st userId (-product.price)
        let st2 := decStock st1 productId
        let details := "LOGIN: " ++ product.credentials ++ "\nLINK: " ++ product.publicLink
        let st3 := insertOrder st2
          { userId := userId, username := user.username, productName := product.name,
            price := product.price, productLink := product.publicLink,
            details := details, otype := "PRODUCT", ostatus := "COMPLETED" }
        (.success details, st3)

/-! ## Product purchase (MySQL variant, `src/routes/products.js` route 7)

The delivery payload is `product_link`; the route pops the first non-empty
line, persists the remainder, and sets the stock to the number of remaining
lines (`newStock = lines.length` after `lines.shift()`). -/

/-- A `products` row of the MySQL schema as the purchase route reads it. -/
structure MyProduct where
  pid : Nat
  name : String
  price : ℚ
  stock : Int
  productLink : String
  deriving DecidableEq, Repr

/-- An `orders` row as inserted by the MySQL purchase route
(columns `user_id, product_name, price, product_link`); the delivered
item is stored in `product_link`, which is `none` when the column holds
SQL NULL. -/
structure MyOrder where
  userId : Nat
  productName : String
  price : ℚ
  productLink : Option String
  deriving DecidableEq, Repr

structure MyDB where
  users : List User
  products : List MyProduct
  orders : List MyOrder
  deriving DecidableEq, Repr

/-- Models `product.product_link.split('\n').filter(l => l.trim() !== "")`. -/
def nonemptyLines (s : String) : List String :=
  (splitNl s).filter (fun l => isBlank l = false)

def myFindUser (st : MyDB) (uid : Nat) : Option User := findBy User.uid st.users uid

def myFindProduct (st : MyDB) (pid : Nat) : Option MyProduct := findBy MyProduct.pid st.products pid

def myIncBalance (st : MyDB) (uid : Nat) (d : ℚ) : MyDB :=
  { st with users := updBy User.uid st.users uid (fun u => { u with balance := u.balance + d }) }

def mySetProduct (st : MyDB) (pid : Nat) (f : MyProduct → MyProduct) : MyDB :=
  { st with products := updBy MyProduct.pid st.products pid f }

def myUserBal (st : MyDB) (uid : Nat) : Option ℚ := (myFindUser st uid).map User.balance

/-- The outcomes of the MySQL purchase route.  `successNull` is the
response of the empty-payload path: the route still answers
"Purchase successful", but `item` was `undefined`, so the reply carries
no item. -/
inductive MyRes where
  | notFound
  | outOfStock
  | insufficientBalance
  | success (item : String)
  | successNull
  deriving DecidableEq, Repr

def MyRes.isSuccess : MyRes → Bool
  | .success _ => true
  | .successNull => true
  | _ => false

/-- Modelled from the spec: the MySQL `orders` table schema (the
`digital_store` database) is not under `src/`.  The spec's order record
describes the delivered details as free text with no NOT NULL constraint,
so the INSERT whose popped-line parameter was escaped to SQL NULL by the
driver is taken to succeed, storing a row with a NULL delivered item. -/
def insertNullRow (st : MyDB) (userId : Nat) (product : MyProduct) : MyDB :=
  { st with orders := st.orders ++ [⟨userId, product.name, product.price, none⟩] }

/-- Route 7 of `src/routes/products.js`, lines 100-141.  When the payload
has no non-empty line, `lines.shift()` yields `undefined`; the two UPDATEs
run, and the INSERT goes through `db.query` — mysql2's text protocol —
whose sqlstring escaping turns `undefined` into SQL NULL, so the row is
inserted with a NULL delivered item (see `insertNullRow`) and the route
answers "Purchase successful" with no `item` field in the reply. -/
def mysqlPurchase (st : MyDB) (userId productId : Nat) : MyRes × MyDB :=
  match myFindUser st userId, myFindProduct st productId with
  | none, _ => (.notFound, st)
  | some _, none => (.notFound, st)
  | some user, some product =>
    if product.stock ≤ 0 then (.outOfStock, st)
    else if user.balance < product.price then (.insufficientBalance, st)
    else
      match nonemptyLines product.productLink with
      | [] =>
        let st1 := myIncBalance st userId (-product.price)
        let st2 := mySetProduct st1 productId (fun p => { p with productLink := "", stock := 0 })
        (.successNull, insertNullRow st2 userId product)
      | item :: rest =>
        let remaining := joinNl rest
        let st1 := myIncBalance st userId (-product.price)
        let st2 := mySetProduct st1 productId
          (fun p => { p with productLink := remaining, stock := (rest.length : Int) })
        let st3 := { st2 with orders := st2.orders ++ [⟨userId, product.name, product.price, some item⟩] }
        (.success item, st3)

/-! ## SMS order (`src/server.js` lines 628-831)

The provider interactions are inputs to the embedded handler:
* the guest price fetch (`PriceResp`),
* the activation purchase (`AllocResp`: HTTP outcome, raw body text, and what
  `JSON.parse` would yield on that text).

The handler's branching on these inputs follows the source line by line. -/

def AUTO_REFUND_TIMEOUT : Nat := 25 * 60 * 1000

/-- Outcome of `fetch('https://5sim.net/v1/guest/prices?...')` as the code
distinguishes it: non-ok response (line 649), tuple absent from the parsed
JSON (line 655), or a cost for the requested (service, country, operator). -/
inductive PriceResp where
  | fetchFail
  | missing
  | cost (c : ℚ)
  deriving DecidableEq, Repr

/-- Fields of the parsed allocation response body that the code reads:
`message`, `error`, `phone`, `id` (absent/undefined modelled as `none`). -/
structure AllocJson where
  message : Option String
  error : Option String
  phone : Option String
  id : Option String
  deriving DecidableEq, Repr

/-- Outcome of the activation `fetch`: a thrown network error (line 766), or
a response with `ok` flag, HTTP status, body text, and the result of
`JSON.parse` on that text (`none` when parsing throws). -/
inductive AllocResp where
  | netErr (msg : String)
  | resp (ok : Bool) (status : Nat) (text : String) (parsed : Option AllocJson)
  deriving DecidableEq, Repr

/-- Tests whether `pat` starts the char list (like `String.startsWith` on lists). -/
def listStarts : List Char → List Char → Bool
  | [], _ => true
  | _ :: _, [] => false
  | p :: ps, c :: cs => p == c && listStarts ps cs

def hasSubAux (pat : List Char) : List Char → Bool
  | [] => pat.isEmpty
  | c :: rest => listStarts pat (c :: rest) || hasSubAux pat rest

/-- JavaScript `text.includes(pat)`. -/
def hasSub (text pat : String) : Bool :=
  hasSubAux pat.toList text.toList

/-- The distinct error answers of the SMS order route; each constructor
corresponds to one `res.status(...).json(\x7b error: ... \x7d)` site of
`src/server.js` lines 630-830. -/
inductive SmsErr where
  | missingFields
  | notConfigured
  | priceFetchFailed
  | tupleUnavailable
  | userNotFound
  | insufficientBalance (need avail : ℚ)
  | networkError (msg : String)
  | emptyProviderBody
  | htmlProviderBody
  | unauthorizedKey
  | invalidProviderBody (snippet : String)
  | noFreePhones
  | providerMessage (m : String)
  | providerErrorField (e : String)
  | apiError (status : Nat)
  | missingPhoneOrId
  | internalError (m : String)
  deriving DecidableEq, Repr

inductive SmsOut where
  | ok (orderId : Nat) (phone : String) (price : ℚ) (timeoutSeconds : Nat)
  | err (httpStatus : Nat) (kind : SmsErr)
  deriving DecidableEq, Repr

inductive AllocOutcome where
  | failure (httpStatus : Nat) (kind : SmsErr)
  | accepted (phone id : String)
  deriving DecidableEq, Repr

/-- The allocation try block, `src/server.js` lines 692-769: empty body
(line 711), HTML body (line 717), JSON parse failure (lines 727-737,
distinguishing bodies containing "Unauthorized"/"401"), non-ok HTTP status
(lines 741-757, in the order: message equal to "no free phones", any
`message`, any `error`, generic), and missing/falsy `phone` or `id`
(line 759, where an empty string is falsy in JavaScript). -/
def allocCheck : AllocResp → AllocOutcome
  | .netErr m => .failure 500 (.networkError m)
  | .resp ok status text parsed =>
    if isBlank text then .failure 400 .emptyProviderBody
    else if hasSub text "<!DOCTYPE" || hasSub text "<html" || hasSub text "<head" then
      .failure 400 .htmlProviderBody
    else
      match parsed with
      | none =>
        if hasSub text "Unauthorized" || hasSub text "401" then .failure 400 .unauthorizedKey
        else .failure 400 (.invalidProviderBody (takeChars 50 text))
      | some j =>
        if ok = false then
          match j.message with
          | some m => if m = "no free phones" then .failure 400 .noFreePhones
                      else .failure 400 (.providerMessage m)
          | none =>
            match j.error with
            | some e => .failure 400 (.providerErrorField e)
            | none => .failure 400 (.apiError status)
        else
          match j.phone, j.id with
          | some p, some i =>
            if p = "" ∨ i = "" then .failure 400 .missingPhoneOrId
            else .accepted p i
          | _, _ => .failure 400 .missingPhoneOrId

/-- Route `/api/sms/order`, `src/server.js` lines 630-831.

Line 690 declares an outer `let orderData` intended to carry the parsed
allocation response out of the try block, but line 724 re-declares
`let orderData` inside that block, so every assignment targets the inner
binding.  When control reaches line 772 the debit is applied, and then
line 778's insert reads `orderData.phone` from the still-undefined outer
binding: a TypeError is thrown, the outer catch (line 827) answers 500,
and no `sms_orders` document is ever inserted.  The embedding reproduces
exactly that: after a valid allocation the user is debited and the
handler returns the 500 of the outer catch. -/
def smsOrder (st : DB) (userId : Nat) (service country oper : String)
    (hasKey : Bool) (priceResp : PriceResp) (alloc : AllocResp) : SmsOut × DB :=
  if service = "" ∨ country = "" ∨ oper = "" then (.err 400 .missingFields, st)
  else if hasKey = false then (.err 500 .notConfigured, st)
  else
    match priceResp with
    | .fetchFail => (.err 400 .priceFetchFailed, st)
    | .missing => (.err 400 .tupleUnavailable, st)
    | .cost c =>
      let finalPrice : ℚ := ((smsFinalPrice c 30 20 : ℤ) : ℚ)
      match findUser st userId with
      | none => (.err 404 .userNotFound, st)
      | some user =>
        if user.balance < finalPrice then
          (.err 400 (.insufficientBalance finalPrice user.balance), st)
        else
          match allocCheck alloc with
          | .failure status kind => (.err status kind, st)
          | .accepted _ _ =>
            let st1 := incBalance st userId (-finalPrice)
            (.err 500 (.internalError "Cannot read properties of undefined (reading phone)"), st1)

/-- The auto-refund timer callback, `src/server.js` lines 795-817: re-read
the order; if still WAITING, credit `order.price` back and mark EXPIRED. -/
def autoRefundFire (st : DB) (orderId : Nat) : DB :=
  match findSms st orderId with
  | none => st
  | some order =>
    if order.status = "WAITING" then
      let st1 := incBalance st order.userId order.price
      setSms st1 orderId (fun o => { o with status := "EXPIRED" })
    else st

/-- Outcome of the provider `check` fetch as the code distinguishes it
(`src/server.js` lines 850-874): thrown fetch, empty/unparseable body,
parsed body without `sms[0]`, or a delivered code. -/
inductive CheckResp where
  | netErr
  | noBody
  | noSms
  | sms (code : String)
  deriving DecidableEq, Repr

inductive CheckOut where
  | notFound
  | notConfigured
  | serverError
  | result (code : Option String) (status : String)
  deriving DecidableEq, Repr

/-- Route `/api/sms/check/:orderId`, `src/server.js` lines 837-891.  Note there is
no terminal-state guard: whenever the provider reports a code the order is
set to COMPLETED regardless of its current status. -/
def smsCheck (st : DB) (orderId : Nat) (hasKey : Bool) (resp : CheckResp) : CheckOut × DB :=
  match findSms st orderId with
  | none => (.notFound, st)
  | some order =>
    if hasKey = false then (.notConfigured, st)
    else
      match resp with
      | .netErr => (.serverError, st)
      | .noBody => (.result none order.status, st)
      | .noSms => (.result none order.status, st)
      | .sms code =>
        let st1 := setSms st orderId (fun o => { o with smsCode := some code, status := "COMPLETED" })
        (.result (some code) "COMPLETED", st1)

inductive CancelOut where
  | notFound
  | cannotCancel
  | cancelled (refund : ℚ)
  deriving DecidableEq, Repr

/-- Route `/api/sms/cancel/:orderId`, `src/server.js` lines 897-932: refuse when
the status is terminal, otherwise credit `order.price` back to the owner and
mark the order CANCELLED. -/
def smsCancel (st : DB) (orderId : Nat) : CancelOut × DB :=
  match findSms st orderId with
  | none => (.notFound, st)
  | some order =>
    if ["COMPLETED", "CANCELLED", "EXPIRED"].contains order.status then
      (.cannotCancel, st)
    else
      let st1 := incBalance st order.userId order.price
      let st2 := setSms st1 orderId (fun o => { o with status := "CANCELLED" })
      (.cancelled order.price, st2)

/-! ## Payment verification (`src/server.js` lines 948-988) -/

/-- What the gateway verification call reports for a transaction id. -/
inductive GwResp where
  | successful (amount : ℚ)
  | notSuccessful
  | gwError
  deriving DecidableEq, Repr

inductive VerifyOut where
  | verified (amount : ℚ)
  | notSuccessful
  | verifyFailed
  deriving DecidableEq, Repr

/-- Route `/api/auth/verify-payment`: on a successful gateway report, credit the
amount and insert a transaction record.  There is no lookup of previously
recorded transactions for the same reference. -/
def verifyPayment (st : DB) (userId : Nat) (txId : String) (gw : GwResp) : VerifyOut × DB :=
  match gw with
  | .gwError => (.verifyFailed, st)
  | .notSuccessful => (.notSuccessful, st)
  | .successful amount =>
    let st1 := incBalance st userId amount
    let st2 := insertTxn st1 { userId := userId, transactionId := txId,
                               amount := amount, status := "successful" }
    (.verified amount, st2)

/-! ## SMM order (`src/server.js` lines 1066-1117) -/

/-- An entry of the provider's service catalog as the code reads it. -/
structure SmmService where
  service : Nat
  name : String
  rate : ℚ
  deriving DecidableEq, Repr

inductive SmmOut where
  | serviceNotFound
  | insufficientBalance
  | internalError
  | placed (providerOrderId : Nat)
  deriving DecidableEq, Repr

/-- Route `/api/smm/order`.  `services` is the provider catalog fetch (`none` when
the axios call throws), `submitResp` the provider order submission (`none`
when it throws).  The third component of the return value records whether
the submission call to the provider was made.

When the user lookup yields `null`, line 1081 (`user.balance`) throws a
TypeError which the route's catch answers with 500 — before the submission,
the debit and the order insert. -/
def smmOrder (st : DB) (userId service : Nat) (link : String) (quantity : ℚ)
    (services : Option (List SmmService)) (submitResp : Option Nat) :
    SmmOut × DB × Bool :=
  match services with
  | none => (.internalError, st, false)
  | some svcs =>
    match svcs.find? (fun s => s.service == service) with
    | none => (.serviceNotFound, st, false)
    | some serviceData =>
      let price : ℚ := serviceData.rate * (120 / 100) * quantity / 1000
      match findUser st userId with
      | none => (.internalError, st, false)
      | some user =>
        if user.balance < price then (.insufficientBalance, st, false)
        else
          match submitResp with
          | none => (.internalError, st, true)
          | some provId =>
            let st1 := incBalance st userId (-price)
            let st2 := insertOrder st1
              { userId := userId, username := user.username, productName := serviceData.name,
                price := price, productLink := link,
                details := "Order ID: " ++ toString provId,
                otype := "SMM", ostatus := "PENDING" }
            (.placed provId, st2, true)

/-! ## Concrete states used by witnesses and counterexamples -/

/-- One registered user with balance 1000. -/
def stA : DB := ⟨[⟨1, "alice", 1000⟩], [], [], [], [], 1⟩

/-- A fully valid provider allocation response: HTTP 200, non-empty
non-HTML JSON body carrying `phone` and `id`. -/
def allocOkA : AllocResp :=
  .resp true 200 "ok-body" (some ⟨none, none, some "79991112233", some "12345"⟩)

/-- Catalog state for the end-to-end scenario of the spec: balance 1000,
one product priced 300 with stock 2. -/
def stC : DB :=
  ⟨[⟨1, "alice", 1000⟩], [⟨1, "Netflix", 300, 2, "user:pass", "http://x"⟩], [], [], [], 1⟩

/-- Catalog state with a zero-priced, out-of-stock product. -/
def stH : DB := ⟨[⟨1, "carol", 50⟩], [⟨1, "Freebie", 0, 0, "c", "http://l"⟩], [], [], [], 1⟩

/-- MySQL-variant state whose stock (5) disagrees with the payload line
count (3). -/
def stM3 : MyDB := ⟨[⟨1, "bob", 100⟩], [⟨1, "Accounts", 10, 5, "a\nb\nc"⟩], []⟩

/-- A cancelled (hence refunded) SMS order. -/
def stD : DB :=
  ⟨[⟨1, "alice", 1000⟩], [], [],
   [⟨7, 1, "telegram", "7", "any", "79991112233", 90, "12345", "CANCELLED", none, 0⟩], [], 8⟩

/-- One registered user with balance 500. -/
def stB : DB := ⟨[⟨2, "bella", 500⟩], [], [], [], [], 1⟩

/-- A state holding a WAITING SMS order of price 90 owned by user 1. -/
def stE : DB :=
  ⟨[⟨1, "alice", 910⟩], [], [],
   [⟨7, 1, "telegram", "7", "any", "79991112233", 90, "12345", "WAITING", none, 0⟩], [], 8⟩

/-- One registered user with balance 0 and no recorded transactions. -/
def stF : DB := ⟨[⟨1, "alice", 0⟩], [], [], [], [], 1⟩

/-- A provider catalog with one service whose per-1000 rate is 1.5. -/
def svcsA : List SmmService := [⟨42, "IG Likes", 3/2⟩]

/-- One registered user with balance 10. -/
def stG : DB := ⟨[⟨1, "alice", 10⟩], [], [], [], [], 1⟩

/-! ## Store lemmas -/

theorem find?_updBy {α : Type} (key : α → Nat) (f : α → α)
    (hf : ∀ a, key (f a) = key a) (k x : Nat) (l : List α) :
    (updBy key l k f).find? (fun a => key a == x)
      = (l.find? (fun a => key a == x)).map (fun a => if key a == k then f a else a) := by
  rw [updBy, List.find?_map]
  have hp : ((fun a => key a == x) ∘ (fun a => if key a == k then f a else a))
      = (fun a => key a == x) := by
    funext a
    by_cases h : key a = k
    · simp [Function.comp, h, hf]
    · simp [Function.comp, h]
  rw [hp]

theorem findUser_incBalance (st : DB) (uid x : Nat) (d : ℚ) :
    findUser (incBalance st uid d) x
      = (findUser st x).map
          (fun u => if u.uid == uid then { u with balance := u.balance + d } else u) :=
  find?_updBy User.uid (fun u => { u with balance := u.balance + d }) (fun _ => rfl) uid x st.users

theorem findUser_found_key (st : DB) (uid : Nat) (u : User)
    (hu : findUser st uid = some u) : (u.uid == uid) = true := by
  simp only [findUser, findBy] at hu
  simpa using List.find?_some hu

theorem findUser_incBalance_self (st : DB) (uid : Nat) (d : ℚ) (u : User)
    (hu : findUser st uid = some u) :
    findUser (incBalance st uid d) uid = some { u with balance := u.balance + d } := by
  rw [findUser_incBalance, hu, Option.map_some']
  rw [if_pos (findUser_found_key st uid u hu)]

theorem findSms_setSms (st : DB) (oid x : Nat) (f : SmsOrder → SmsOrder)
    (hf : ∀ o, (f o).soid = o.soid) :
    findSms (setSms st oid f) x
      = (findSms st x).map (fun o => if o.soid == oid then f o else o) :=
  find?_updBy SmsOrder.soid f hf oid x st.smsOrders

theorem findSms_found_key (st : DB) (oid : Nat) (o : SmsOrder)
    (ho : findSms st oid = some o) : (o.soid == oid) = true := by
  simp only [findSms, findBy] at ho
  simpa using List.find?_some ho

theorem findSms_setSms_self (st : DB) (oid : Nat) (f : SmsOrder → SmsOrder)
    (hf : ∀ o, (f o).soid = o.soid) (o : SmsOrder) (ho : findSms st oid = some o) :
    findSms (setSms st oid f) oid = some (f o) := by
  rw [findSms_setSms st oid oid f hf, ho, Option.map_some']
  rw [if_pos (findSms_found_key st oid o ho)]

theorem findProduct_decStock (st : DB) (pid x : Nat) :
    findProduct (decStock st pid) x
      = (findProduct st x).map
          (fun p => if p.pid == pid then { p with stock := p.stock - 1 } else p) :=
  find?_updBy Product.pid (fun p => { p with stock := p.stock - 1 }) (fun _ => rfl) pid x st.products

theorem findProduct_found_key (st : DB) (pid : Nat) (p : Product)
    (hp : findProduct st pid = some p) : (p.pid == pid) = true := by
  simp only [findProduct, findBy] at hp
  simpa using List.find?_some hp

theorem findSms_incBalance (st : DB) (uid x : Nat) (d : ℚ) :
    findSms (incBalance st uid d) x = findSms st x := rfl

theorem findUser_setSms (st : DB) (oid x : Nat) (f : SmsOrder → SmsOrder) :
    findUser (setSms st oid f) x = findUser st x := rfl

theorem findUser_decStock (st : DB) (pid x : Nat) :
    findUser (decStock st pid) x = findUser st x := rfl

theorem findUser_insertOrder (st : DB) (o : OrderRec) (x : Nat) :
    findUser (insertOrder st o) x = findUser st x := rfl

theorem findProduct_incBalance (st : DB) (uid x : Nat) (d : ℚ) :
    findProduct (incBalance st uid d) x = findProduct st x := rfl

theorem myFindUser_myIncBalance (st : MyDB) (uid x : Nat) (d : ℚ) :
    myFindUser (myIncBalance st uid d) x
      = (myFindUser st x).map
          (fun u => if u.uid == uid then { u with balance := u.balance + d } else u) :=
  find?_updBy User.uid (fun u => { u with balance := u.balance + d }) (fun _ => rfl) uid x st.users

theorem myFindUser_found_key (st : MyDB) (uid : Nat) (u : User)
    (hu : myFindUser st uid = some u) : (u.uid == uid) = true := by
  simp only [myFindUser, findBy] at hu
  simpa using List.find?_some hu

theorem myFindProduct_found_key (st : MyDB) (pid : Nat) (p : MyProduct)
    (hp : myFindProduct st pid = some p) : (p.pid == pid) = true := by
  simp only [myFindProduct, findBy] at hp
  simpa using List.find?_some hp

theorem myFindUser_myIncBalance_self (st : MyDB) (uid : Nat) (d : ℚ) (u : User)
    (hu : myFindUser st uid = some u) :
    myFindUser (myIncBalance st uid d) uid = some { u with balance := u.balance + d } := by
  rw [myFindUser_myIncBalance, hu, Option.map_some']
  rw [if_pos (myFindUser_found_key st uid u hu)]

theorem myFindProduct_mySetProduct (st : MyDB) (pid x : Nat) (f : MyProduct → MyProduct)
    (hf : ∀ p, (f p).pid = p.pid) :
    myFindProduct (mySetProduct st pid f) x
      = (myFindProduct st x).map (fun p => if p.pid == pid then f p else p) :=
  find?_updBy MyProduct.pid f hf pid x st.products

theorem myFindProduct_myIncBalance (st : MyDB) (uid x : Nat) (d : ℚ) :
    myFindProduct (myIncBalance st uid d) x = myFindProduct st x := rfl

theorem myFindUser_mySetProduct (st : MyDB) (pid x : Nat) (f : MyProduct → MyProduct) :
    myFindUser (mySetProduct st pid f) x = myFindUser st x := rfl

theorem allocCheck_allocOkA : allocCheck allocOkA = .accepted "79991112233" "12345" := by
  decide

theorem smsFinalPrice_90 : smsFinalPrice (5/2) 30 20 = 90 := by
  norm_num [smsFinalPrice]

theorem smsFinalPrice_360 : smsFinalPrice 10 30 20 = 360 := by
  norm_num [smsFinalPrice]

theorem smsOrder_stA :
    smsOrder stA 1 "telegram" "7" "any" true (.cost (5/2)) allocOkA
      = (.err 500 (.internalError "Cannot read properties of undefined (reading phone)"),
         ⟨[⟨1, "alice", 910⟩], [], [], [], [], 1⟩) := by
  simp only [smsOrder, smsFinalPrice_90, allocCheck_allocOkA]
  norm_num [findUser, findBy, incBalance, updBy, List.find?]
  rw [if_neg (by simp)]
  norm_num [stA]

theorem smsOrder_alloc_failure (st : DB) (userId : Nat) (service country oper : String)
    (c : ℚ) (u : User) (alloc : AllocResp) (status : Nat) (kind : SmsErr)
    (hs : service ≠ "") (hc : country ≠ "") (ho : oper ≠ "")
    (hu : findUser st userId = some u)
    (hbal : ¬ u.balance < ((smsFinalPrice c 30 20 : ℤ) : ℚ))
    (halloc : allocCheck alloc = .failure status kind) :
    smsOrder st userId service country oper true (.cost c) alloc = (.err status kind, st) := by
  simp only [smsOrder]
  rw [if_neg (by simp [hs, hc, ho])]
  rw [if_neg (by simp)]
  simp only [hu]
  rw [if_neg hbal]
  simp only [halloc]

/-! ## Purchase evaluation lemmas -/

theorem purchase_eval (st : DB) (uid pid : Nat) (u : User) (p : Product)
    (hp : findProduct st pid = some p) (hu : findUser st uid = some u)
    (hb : ¬ u.balance < p.price) (hs : ¬ p.stock < 1) :
    purchase st uid pid
      = (.success ("LOGIN: " ++ p.credentials ++ "\nLINK: " ++ p.publicLink),
         insertOrder (decStock (incBalance st uid (-p.price)) pid)
           { userId := uid, username := u.username, productName := p.name,
             price := p.price, productLink := p.publicLink,
             details := "LOGIN: " ++ p.credentials ++ "\nLINK: " ++ p.publicLink,
             otype := "PRODUCT", ostatus := "COMPLETED" }) := by
  simp only [purchase, hp, hu]
  rw [if_neg hb, if_neg hs]

theorem purchase_failure_unchanged (st : DB) (uid pid : Nat)
    (h : (purchase st uid pid).1.isSuccess = false) :
    (purchase st uid pid).2 = st := by
  simp only [purchase] at *
  cases hp : findProduct st pid with
  | none => simp [hp]
  | some product =>
    cases hu : findUser st uid with
    | none => simp [hp, hu]
    | some user =>
      simp only [hp, hu] at h ⊢
      by_cases hb : user.balance < product.price
      · simp [hb]
      · by_cases hs : product.stock < 1
        · simp [hb, hs]
        · rw [if_neg hb, if_neg hs] at h
          simp [PurchaseRes.isSuccess] at h

theorem purchase_success_inv (st : DB) (uid pid : Nat)
    (h : (purchase st uid pid).1.isSuccess = true) :
    ∃ u p, findProduct st pid = some p ∧ findUser st uid = some u
      ∧ ¬ u.balance < p.price ∧ ¬ p.stock < 1 := by
  simp only [purchase] at h
  cases hp : findProduct st pid with
  | none => simp only [hp] at h; simp [PurchaseRes.isSuccess] at h
  | some product =>
    cases hu : findUser st uid with
    | none => simp only [hp, hu] at h; simp [PurchaseRes.isSuccess] at h
    | some user =>
      simp only [hp, hu] at h
      by_cases hb : user.balance < product.price
      · rw [if_pos hb] at h; simp [PurchaseRes.isSuccess] at h
      · by_cases hs : product.stock < 1
        · rw [if_neg hb, if_pos hs] at h; simp [PurchaseRes.isSuccess] at h
        · exact ⟨user, product, rfl, rfl, hb, hs⟩

theorem mysqlPurchase_success_eval (st : MyDB) (uid pid : Nat) (u : User) (p : MyProduct)
    (item : String) (rest : List String)
    (hu : myFindUser st uid = some u) (hp : myFindProduct st pid = some p)
    (hs : ¬ p.stock ≤ 0) (hb : ¬ u.balance < p.price)
    (hlines : nonemptyLines p.productLink = item :: rest) :
    mysqlPurchase st uid pid
      = (.success item,
         { (mySetProduct (myIncBalance st uid (-p.price)) pid
             (fun q => { q with productLink := joinNl rest, stock := (rest.length : Int) })) with
           orders := st.orders ++ [⟨uid, p.name, p.price, some item⟩] }) := by
  simp only [mysqlPurchase, hp, hu]
  rw [if_neg hs, if_neg hb]
  simp only [hlines]
  rfl

theorem mysqlPurchase_enumfail_unchanged (st : MyDB) (uid pid : Nat)
    (h : (mysqlPurchase st uid pid).1 = .notFound
       ∨ (mysqlPurchase st uid pid).1 = .outOfStock
       ∨ (mysqlPurchase st uid pid).1 = .insufficientBalance) :
    (mysqlPurchase st uid pid).2 = st := by
  simp only [mysqlPurchase] at *
  cases hu : myFindUser st uid with
  | none => simp [hu]
  | some user =>
    cases hp : myFindProduct st pid with
    | none => simp [hu, hp]
    | some product =>
      simp only [hu, hp] at h ⊢
      by_cases hs : product.stock ≤ 0
      · simp [hs]
      · by_cases hb : user.balance < product.price
        · simp [hs, hb]
        · rw [if_neg hs, if_neg hb] at h
          cases hl : nonemptyLines product.productLink with
          | nil => rw [hl] at h; simp at h
          | cons item rest => rw [hl] at h; simp at h

theorem mysqlPurchase_success_inv (st : MyDB) (uid pid : Nat) (item : String)
    (h : (mysqlPurchase st uid pid).1 = .success item) :
    ∃ u p rest, myFindUser st uid = some u ∧ myFindProduct st pid = some p
      ∧ ¬ p.stock ≤ 0 ∧ ¬ u.balance < p.price
      ∧ nonemptyLines p.productLink = item :: rest := by
  simp only [mysqlPurchase] at h
  cases hu : myFindUser st uid with
  | none => simp only [hu] at h; simp at h
  | some user =>
    cases hp : myFindProduct st pid with
    | none => simp only [hu, hp] at h; simp at h
    | some product =>
      simp only [hu, hp] at h
      by_cases hs : product.stock ≤ 0
      · rw [if_pos hs] at h; simp at h
      · by_cases hb : user.balance < product.price
        · rw [if_neg hs, if_pos hb] at h; simp at h
        · rw [if_neg hs, if_neg hb] at h
          cases hl : nonemptyLines product.productLink with
          | nil => simp only [hl] at h; simp at h
          | cons item1 rest =>
            simp only [hl] at h
            have hi : item1 = item := MyRes.success.inj h
            rw [hi] at hl
            exact ⟨user, product, rest, rfl, rfl, hs, hb, hl⟩

theorem mysqlPurchase_nullpath_delta (st : MyDB) (uid pid : Nat) (u : User)
    (hu : myFindUser st uid = some u)
    (h : (mysqlPurchase st uid pid).1 = .successNull) :
    ∃ p, myFindProduct st pid = some p
      ∧ myUserBal (mysqlPurchase st uid pid).2 uid = some (u.balance - p.price) := by
  simp only [mysqlPurchase] at h
  cases hu1 : myFindUser st uid with
  | none => simp only [hu1] at h; simp at h
  | some user =>
    cases hp : myFindProduct st pid with
    | none => simp only [hu1, hp] at h; simp at h
    | some product =>
      simp only [hu1, hp] at h
      by_cases hs : product.stock ≤ 0
      · rw [if_pos hs] at h; simp at h
      · by_cases hb : user.balance < product.price
        · rw [if_neg hs, if_pos hb] at h; simp at h
        · rw [if_neg hs, if_neg hb] at h
          cases hl : nonemptyLines product.productLink with
          | cons item1 rest => simp only [hl] at h; simp at h
          | nil =>
            refine ⟨product, rfl, ?_⟩
            have heval : mysqlPurchase st uid pid
                = (.successNull,
                   insertNullRow (mySetProduct (myIncBalance st uid (-product.price)) pid
                     (fun q => { q with productLink := "", stock := 0 })) uid product) := by
              simp only [mysqlPurchase, hu1, hp]
              rw [if_neg hs, if_neg hb]
              simp only [hl]
            rw [heval]
            show ((myFindUser (myIncBalance st uid (-product.price)) uid).map User.balance) = _
            rw [myFindUser_myIncBalance_self st uid (-product.price) u hu]
            simp [sub_eq_add_neg]

theorem findProduct_insertOrder (st : DB) (o : OrderRec) (x : Nat) :
    findProduct (insertOrder st o) x = findProduct st x := rfl

/-! ## Claim theorems -/

/-- C1.  The claim says a successful provider allocation is followed by the
debit, the insertion of a WAITING `sms_orders` record (phone, activation id,
`expires_at = now + 25` minutes) and a reply carrying order id, phone and
price, with no debit ever applied without the record.  The code violates
this: because the inner `let orderData` of `src/server.js` line 724 shadows
the outer declaration of line 690, the insert of line 778 dereferences an
undefined variable.  At the concrete input below (balance 1000, upstream
cost 2.5, valid allocation) the handler debits ₦90 and then answers 500,
with no `sms_orders` record inserted: a silent charge. -/
theorem C1_alloc_success_debits_without_record :
    (smsOrder stA 1 "telegram" "7" "any" true (.cost (5/2)) allocOkA).1
        = .err 500 (.internalError "Cannot read properties of undefined (reading phone)")
    ∧ userBal (smsOrder stA 1 "telegram" "7" "any" true (.cost (5/2)) allocOkA).2 1 = some 910
    ∧ (smsOrder stA 1 "telegram" "7" "any" true (.cost (5/2)) allocOkA).2.smsOrders = [] := by
  refine ⟨?_, ?_, ?_⟩ <;>
    simp [smsOrder_stA, userBal, findUser, findBy, List.find?]

/-- C4.  Every provider-allocation failure shape (network error, non-success
HTTP status, empty body, HTML body, non-JSON body, missing phone/id) makes
the order route answer the error determined by that shape and leaves the
state — balance and `sms_orders` included — untouched; and the canonical
errors of the distinct shapes are pairwise distinct. -/
theorem C4_alloc_failure_distinct_error_no_debit :
    (∀ (st : DB) (userId : Nat) (service country oper : String)
       (c : ℚ) (u : User) (alloc : AllocResp) (status : Nat) (kind : SmsErr),
       service ≠ "" → country ≠ "" → oper ≠ "" →
       findUser st userId = some u →
       ¬ u.balance < ((smsFinalPrice c 30 20 : ℤ) : ℚ) →
       allocCheck alloc = .failure status kind →
       smsOrder st userId service country oper true (.cost c) alloc = (.err status kind, st))
    ∧ List.Pairwise (fun a b => a ≠ b)
        [SmsErr.networkError "socket hang up", .apiError 503, .emptyProviderBody,
         .htmlProviderBody, .unauthorizedKey, .invalidProviderBody "bad body",
         .missingPhoneOrId] := by
  constructor
  · exact smsOrder_alloc_failure
  · decide

/-- C4 witness: an empty provider body at a state with sufficient balance
yields the empty-body error and leaves the state unchanged. -/
theorem C4_witness :
    smsOrder stA 1 "telegram" "7" "any" true (.cost (5/2)) (.resp true 200 "" none)
      = (.err 400 .emptyProviderBody, stA) :=
  C4_alloc_failure_distinct_error_no_debit.1 stA 1 "telegram" "7" "any" (5/2)
    ⟨1, "alice", 1000⟩ (.resp true 200 "" none) 400 .emptyProviderBody
    (by decide) (by decide) (by decide)
    (by decide)
    (by rw [smsFinalPrice_90]; norm_num)
    (by decide)

/-- C7.  The pricing converter is the pure function
`ceil(cost * rate * (1 + markup/100))`; it yields 360 at (10, 30, 20); and
the SMS order scenario with upstream cost 2.5 at rate 30, markup 20 charges
exactly 90 (the user's balance drops from 1000 to 1000 - 90). -/
theorem C7_pricing_converter :
    (∀ c r m : ℚ, smsFinalPrice c r m = ⌈c * r * (1 + m / 100)⌉)
    ∧ smsFinalPrice 10 30 20 = 360
    ∧ smsFinalPrice (5/2) 30 20 = 90
    ∧ userBal (smsOrder stA 1 "telegram" "7" "any" true (.cost (5/2)) allocOkA).2 1
        = some (1000 - 90) := by
  refine ⟨fun _ _ _ => rfl, smsFinalPrice_360, smsFinalPrice_90, ?_⟩
  simp [smsOrder_stA, userBal, findUser, findBy, List.find?]
  norm_num

/-! ### C2, C3: purchase settlement -/

/-- C2 counterexample.  At `stH` the product's price is 0 and its stock 0:
the purchase fails with OutOfStock and the balance is exactly unchanged,
yet `balance_after = balance_before - price` still holds (50 = 50 − 0), so
"`balance_after = balance_before - price` if and only if the purchase
reports success" is false at this input. -/
theorem C2_counterexample :
    (purchase stH 1 1).1 = .outOfStock
    ∧ (purchase stH 1 1).1.isSuccess = false
    ∧ userBal (purchase stH 1 1).2 1 = some (50 - 0) := by
  have heval : purchase stH 1 1 = (.outOfStock, stH) := by
    simp only [purchase,
      show findProduct stH 1 = some ⟨1, "Freebie", 0, 0, "c", "http://l"⟩ from rfl,
      show findUser stH 1 = some ⟨1, "carol", 50⟩ from rfl]
    rw [if_neg (show ¬ ((50 : ℚ) < 0) from by norm_num),
        if_pos (show (0 : Int) < 1 from by norm_num)]
  refine ⟨by rw [heval], by rw [heval]; rfl, ?_⟩
  rw [heval]
  norm_num [userBal, findUser, findBy, List.find?, stH]

/-- C2 (amended).  In the MongoDB variant: a failed purchase leaves the
state untouched; a successful one debits exactly the price; and for
`price ≠ 0` the balance equation holds iff the purchase succeeded.  In the
MySQL variant: the enumerated failures (`NotFound`, `OutOfStock`,
`InsufficientBalance`) leave the state untouched, and every path that
answers "Purchase successful" — with a delivered line, or with the NULL
item of an empty payload — debits exactly the price.  At `price = 0` the
biconditional fails, since a failed purchase then also satisfies the
balance equation (see the counterexample). -/
theorem C2_balance_iff_success :
    (∀ (st : DB) (uid pid : Nat),
       (purchase st uid pid).1.isSuccess = false → (purchase st uid pid).2 = st)
    ∧ (∀ (st : DB) (uid pid : Nat) (u : User) (p : Product),
       findUser st uid = some u → findProduct st pid = some p →
       (purchase st uid pid).1.isSuccess = true →
       userBal (purchase st uid pid).2 uid = some (u.balance - p.price))
    ∧ (∀ (st : DB) (uid pid : Nat) (u : User) (p : Product),
       findUser st uid = some u → findProduct st pid = some p → p.price ≠ 0 →
       (userBal (purchase st uid pid).2 uid = some (u.balance - p.price)
         ↔ (purchase st uid pid).1.isSuccess = true))
    ∧ (∀ (st : MyDB) (uid pid : Nat),
       ((mysqlPurchase st uid pid).1 = .notFound
         ∨ (mysqlPurchase st uid pid).1 = .outOfStock
         ∨ (mysqlPurchase st uid pid).1 = .insufficientBalance) →
       (mysqlPurchase st uid pid).2 = st)
    ∧ (∀ (st : MyDB) (uid pid : Nat) (u : User),
       myFindUser st uid = some u →
       (mysqlPurchase st uid pid).1.isSuccess = true →
       ∃ p, myFindProduct st pid = some p
         ∧ myUserBal (mysqlPurchase st uid pid).2 uid = some (u.balance - p.price)) := by
  have hsucc : ∀ (st : DB) (uid pid : Nat) (u : User) (p : Product),
      findUser st uid = some u → findProduct st pid = some p →
      (purchase st uid pid).1.isSuccess = true →
      userBal (purchase st uid pid).2 uid = some (u.balance - p.price) := by
    intro st uid pid u p hu hp h
    obtain ⟨u1, p1, hp1, hu1, hb, hs⟩ := purchase_success_inv st uid pid h
    have hu2 : u1 = u := Option.some.inj (hu1 ▸ hu)
    have hp2 : p1 = p := Option.some.inj (hp1 ▸ hp)
    subst hu2; subst hp2
    rw [purchase_eval st uid pid u1 p1 hp1 hu1 hb hs]
    show ((findUser (incBalance st uid (-p1.price)) uid).map User.balance) = _
    rw [findUser_incBalance_self st uid (-p1.price) u1 hu1]
    simp [sub_eq_add_neg]
  refine ⟨purchase_failure_unchanged, hsucc, ?_, mysqlPurchase_enumfail_unchanged, ?_⟩
  · intro st uid pid u p hu hp hpr
    constructor
    · intro hbal
      by_contra hns
      have hf : (purchase st uid pid).1.isSuccess = false := by
        cases h : (purchase st uid pid).1.isSuccess
        · rfl
        · exact absurd h hns
      rw [purchase_failure_unchanged st uid pid hf] at hbal
      rw [userBal, hu, Option.map_some'] at hbal
      have : u.balance = u.balance - p.price := Option.some.inj hbal
      have : p.price = 0 := by linarith [this]
      exact hpr this
    · exact hsucc st uid pid u p hu hp
  · intro st uid pid u hu h
    cases hres : (mysqlPurchase st uid pid).1 with
    | notFound => rw [hres] at h; simp [MyRes.isSuccess] at h
    | outOfStock => rw [hres] at h; simp [MyRes.isSuccess] at h
    | insufficientBalance => rw [hres] at h; simp [MyRes.isSuccess] at h
    | successNull => exact mysqlPurchase_nullpath_delta st uid pid u hu hres
    | success item =>
      obtain ⟨u1, p1, rest, hu1, hp1, hs, hb, hl⟩ := mysqlPurchase_success_inv st uid pid item hres
      refine ⟨p1, hp1, ?_⟩
      rw [mysqlPurchase_success_eval st uid pid u1 p1 item rest hu1 hp1 hs hb hl]
      show ((myFindUser (myIncBalance st uid (-p1.price)) uid).map User.balance) = _
      rw [myFindUser_myIncBalance_self st uid (-p1.price) u hu]
      simp [sub_eq_add_neg]

/-- C2 witness: at the end-to-end catalog state (balance 1000, price 300,
stock 2) the biconditional holds with a nonzero price. -/
theorem C2_witness :
    userBal (purchase stC 1 1).2 1 = some (1000 - 300)
      ↔ (purchase stC 1 1).1.isSuccess = true :=
  C2_balance_iff_success.2.2.1 stC 1 1 ⟨1, "alice", 1000⟩
    ⟨1, "Netflix", 300, 2, "user:pass", "http://x"⟩
    (by decide) (by decide) (by norm_num)

/-- C3 counterexample.  At `stM3` (stock 5, three payload lines) the MySQL
purchase succeeds, delivering "a", but sets the stock to 2 — the remaining
line count — so "the product's stock decreases by exactly 1" is false at
this input (5 − 1 = 4 ≠ 2). -/
theorem C3_counterexample :
    (mysqlPurchase stM3 1 1).1 = .success "a"
    ∧ (myFindProduct (mysqlPurchase stM3 1 1).2 1).map MyProduct.stock = some 2
    ∧ ¬ ((2 : Int) = 5 - 1) := by
  refine ⟨by decide, by decide, by decide⟩

/-- C3 (amended).  In the MongoDB variant a successful purchase decrements
the stock by exactly 1, delivers the static credential/link fields, returns
them, and inserts a COMPLETED PRODUCT order recording them.  In the MySQL
variant a successful purchase delivers the first non-empty payload line,
persists exactly the remaining lines (the popped line removed exactly
once), records the delivered line in the order row, and sets the stock to
the remaining line count — which equals `stock - 1` exactly when the stock
equalled the number of non-empty payload lines. -/
theorem C3_stock_and_delivery :
    (∀ (st : DB) (uid pid : Nat) (u : User) (p : Product) (d : String),
       findUser st uid = some u → findProduct st pid = some p →
       (purchase st uid pid).1 = .success d →
       d = "LOGIN: " ++ p.credentials ++ "\nLINK: " ++ p.publicLink
       ∧ (findProduct (purchase st uid pid).2 pid).map Product.stock = some (p.stock - 1)
       ∧ (purchase st uid pid).2.orders
           = st.orders ++ [⟨uid, u.username, p.name, p.price, p.publicLink, d,
                            "PRODUCT", "COMPLETED"⟩])
    ∧ (∀ (st : MyDB) (uid pid : Nat) (p : MyProduct) (item : String),
       myFindProduct st pid = some p →
       (mysqlPurchase st uid pid).1 = .success item →
       ∃ rest, nonemptyLines p.productLink = item :: rest
         ∧ myFindProduct (mysqlPurchase st uid pid).2 pid
             = some { p with productLink := joinNl rest, stock := (rest.length : Int) }
         ∧ (mysqlPurchase st uid pid).2.orders = st.orders ++ [⟨uid, p.name, p.price, some item⟩]
         ∧ (p.stock = ((nonemptyLines p.productLink).length : Int) →
             (rest.length : Int) = p.stock - 1)) := by
  constructor
  · intro st uid pid u p d hu hp h
    have hsucc : (purchase st uid pid).1.isSuccess = true := by
      rw [h]; rfl
    obtain ⟨u1, p1, hp1, hu1, hb, hs⟩ := purchase_success_inv st uid pid hsucc
    have hu2 : u1 = u := Option.some.inj (hu1 ▸ hu)
    have hp2 : p1 = p := Option.some.inj (hp1 ▸ hp)
    subst hu2; subst hp2
    have heval := purchase_eval st uid pid u1 p1 hp1 hu1 hb hs
    have hd : d = "LOGIN: " ++ p1.credentials ++ "\nLINK: " ++ p1.publicLink := by
      rw [heval] at h
      exact (PurchaseRes.success.inj h.symm)
    refine ⟨hd, ?_, ?_⟩
    · rw [heval]
      show ((findProduct (decStock (incBalance st uid (-p1.price)) pid) pid).map
             Product.stock) = _
      rw [findProduct_decStock]
      show ((findProduct st pid).map _ ).map _ = _
      rw [hp1, Option.map_some', Option.map_some']
      rw [if_pos (findProduct_found_key st pid p1 hp1)]
    · rw [heval, hd]
      rfl
  · intro st uid pid p item hp h
    obtain ⟨u1, p1, rest, hu1, hp1, hs, hb, hl⟩ := mysqlPurchase_success_inv st uid pid item h
    have hp2 : p1 = p := Option.some.inj (hp1 ▸ hp)
    subst hp2
    have heval := mysqlPurchase_success_eval st uid pid u1 p1 item rest hu1 hp1 hs hb hl
    refine ⟨rest, hl, ?_, ?_, ?_⟩
    · rw [heval]
      show myFindProduct (mySetProduct (myIncBalance st uid (-p1.price)) pid _) pid = _
      rw [myFindProduct_mySetProduct (myIncBalance st uid (-p1.price)) pid pid
            (fun q => { q with productLink := joinNl rest, stock := (rest.length : Int) })
            (fun _ => rfl)]
      show ((myFindProduct st pid).map _) = _
      rw [hp1, Option.map_some']
      rw [if_pos (myFindProduct_found_key st pid p1 hp1)]
    · rw [heval]
    · intro hsync
      rw [hl] at hsync
      simp only [List.length_cons] at hsync
      omega

/-- C3 witness: the MongoDB conjunct at the end-to-end catalog state. -/
theorem C3_witness :
    ("LOGIN: user:pass\nLINK: http://x" : String)
        = "LOGIN: " ++ "user:pass" ++ "\nLINK: " ++ "http://x"
    ∧ (findProduct (purchase stC 1 1).2 1).map Product.stock = some (2 - 1)
    ∧ (purchase stC 1 1).2.orders
        = [] ++ [⟨1, "alice", "Netflix", 300, "http://x", "LOGIN: user:pass\nLINK: http://x",
                  "PRODUCT", "COMPLETED"⟩] :=
  C3_stock_and_delivery.1 stC 1 1 ⟨1, "alice", 1000⟩
    ⟨1, "Netflix", 300, 2, "user:pass", "http://x"⟩ "LOGIN: user:pass\nLINK: http://x"
    (by decide) (by decide) (by decide)

/-! ### C5: terminal states -/

/-- C5.  The claim says no operation ever changes a terminal status, and in
particular that `check` does not overwrite it when the provider later
reports a code.  The code has no terminal-state guard in the check route
(`src/server.js` lines 874-883): at `stD` the order is CANCELLED (already
refunded) and a provider response carrying a code flips it to COMPLETED. -/
theorem C5_check_overwrites_terminal_status :
    (findSms stD 7).map SmsOrder.status = some "CANCELLED"
    ∧ (smsCheck stD 7 true (.sms "4321")).1 = .result (some "4321") "COMPLETED"
    ∧ (findSms (smsCheck stD 7 true (.sms "4321")).2 7).map SmsOrder.status
        = some "COMPLETED" := by
  refine ⟨by decide, by decide, by decide⟩

/-! ### C6: order/cancel round trip -/

theorem smsOrder_stB :
    smsOrder stB 2 "whatsapp" "7" "any" true (.cost 10) allocOkA
      = (.err 500 (.internalError "Cannot read properties of undefined (reading phone)"),
         ⟨[⟨2, "bella", 140⟩], [], [], [], [], 1⟩) := by
  simp only [smsOrder, smsFinalPrice_360, allocCheck_allocOkA]
  norm_num [findUser, findBy, incBalance, updBy, List.find?]
  rw [if_neg (by simp)]
  norm_num [stB]

/-- C6 counterexample.  The round trip cannot even start on the MongoDB
variant: at `stB` (balance 500, upstream cost 10, so a ₦360 charge) the
creation step debits 360 and then fails with 500 before inserting the
order (the C1 shadowing defect), so no order id is returned, there is
nothing to cancel, and the balance is 140 ≠ 500. -/
theorem C6_counterexample :
    (smsOrder stB 2 "whatsapp" "7" "any" true (.cost 10) allocOkA).1
        = .err 500 (.internalError "Cannot read properties of undefined (reading phone)")
    ∧ (smsOrder stB 2 "whatsapp" "7" "any" true (.cost 10) allocOkA).2.smsOrders = []
    ∧ userBal (smsOrder stB 2 "whatsapp" "7" "any" true (.cost 10) allocOkA).2 2 = some 140
    ∧ (140 : ℚ) ≠ 500 := by
  refine ⟨?_, ?_, ?_, by norm_num⟩ <;>
    simp [smsOrder_stB, userBal, findUser, findBy, List.find?]

/-- C6 (amended).  For any state already holding a WAITING SMS order of
price P: cancelling refunds exactly P to the owner and sets the status to
CANCELLED, and cancelling a second time fails ("Cannot cancel this order")
and changes nothing — no double refund.  (The creation half of the claimed
round trip is unreachable in this variant, see the counterexample.) -/
theorem C6_cancel_roundtrip (st : DB) (oid : Nat) (o : SmsOrder) (u : User)
    (ho : findSms st oid = some o) (hw : o.status = "WAITING")
    (hu : findUser st o.userId = some u) :
    (smsCancel st oid).1 = .cancelled o.price
    ∧ findUser (smsCancel st oid).2 o.userId = some { u with balance := u.balance + o.price }
    ∧ findSms (smsCancel st oid).2 oid = some { o with status := "CANCELLED" }
    ∧ smsCancel (smsCancel st oid).2 oid = (.cannotCancel, (smsCancel st oid).2) := by
  have hterm : ¬ (["COMPLETED", "CANCELLED", "EXPIRED"].contains o.status = true) := by
    rw [hw]; decide
  have heval : smsCancel st oid
      = (.cancelled o.price,
         setSms (incBalance st o.userId o.price) oid (fun x => { x with status := "CANCELLED" })) := by
    simp only [smsCancel, ho]
    rw [if_neg hterm]
  have hfind2 : findSms (smsCancel st oid).2 oid = some { o with status := "CANCELLED" } := by
    rw [heval]
    exact findSms_setSms_self (incBalance st o.userId o.price) oid
      (fun x => { x with status := "CANCELLED" }) (fun _ => rfl) o ho
  refine ⟨by rw [heval], ?_, hfind2, ?_⟩
  · rw [heval]
    show findUser (incBalance st o.userId o.price) o.userId = _
    exact findUser_incBalance_self st o.userId o.price u hu
  · generalize hst2 : (smsCancel st oid).2 = st2 at hfind2
    simp only [smsCancel, hfind2]
    rw [if_pos (by decide)]

/-- C6 witness: the cancel round trip at `stE`. -/
theorem C6_witness :
    (smsCancel stE 7).1 = .cancelled 90
    ∧ findUser (smsCancel stE 7).2 1 = some ⟨1, "alice", 910 + 90⟩
    ∧ findSms (smsCancel stE 7).2 7
        = some ⟨7, 1, "telegram", "7", "any", "79991112233", 90, "12345", "CANCELLED", none, 0⟩
    ∧ smsCancel (smsCancel stE 7).2 7 = (.cannotCancel, (smsCancel stE 7).2) :=
  C6_cancel_roundtrip stE 7
    ⟨7, 1, "telegram", "7", "any", "79991112233", 90, "12345", "WAITING", none, 0⟩
    ⟨1, "alice", 910⟩ (by decide) (by decide) (by decide)

/-! ### C9: payment verification -/

/-- C9 counterexample.  Verifying the same successful reference twice
credits twice (0 ↦ 100 ↦ 200) and records two transaction rows, so the
operation is not idempotent per unique reference. -/
theorem C9_counterexample :
    userBal (verifyPayment stF 1 "FLW-1" (.successful 100)).2 1 = some 100
    ∧ userBal (verifyPayment (verifyPayment stF 1 "FLW-1" (.successful 100)).2 1 "FLW-1"
        (.successful 100)).2 1 = some 200
    ∧ (verifyPayment stF 1 "FLW-1" (.successful 100)).2.transactions.length = 1
    ∧ (verifyPayment (verifyPayment stF 1 "FLW-1" (.successful 100)).2 1 "FLW-1"
        (.successful 100)).2.transactions.length = 2 := by
  refine ⟨?_, ?_, by decide, by decide⟩ <;>
    norm_num [verifyPayment, insertTxn, userBal, findUser, findBy, incBalance, updBy,
      List.find?, stF]

/-- C9 (amended).  Every call whose gateway verification reports successful
credits the amount and appends a transaction record, with no lookup of
previously recorded references: two calls with the same reference credit
`2 × amount` and record the reference twice. -/
theorem C9_verify_credits_every_call (st : DB) (uid : Nat) (tx : String) (amt : ℚ) (u : User)
    (hu : findUser st uid = some u) :
    (verifyPayment st uid tx (.successful amt)).1 = .verified amt
    ∧ findUser (verifyPayment st uid tx (.successful amt)).2 uid
        = some { u with balance := u.balance + amt }
    ∧ (verifyPayment st uid tx (.successful amt)).2.transactions
        = st.transactions ++ [⟨uid, tx, amt, "successful"⟩]
    ∧ findUser (verifyPayment (verifyPayment st uid tx (.successful amt)).2 uid tx
          (.successful amt)).2 uid = some { u with balance := u.balance + amt + amt }
    ∧ (verifyPayment (verifyPayment st uid tx (.successful amt)).2 uid tx
          (.successful amt)).2.transactions
        = st.transactions ++ [⟨uid, tx, amt, "successful"⟩, ⟨uid, tx, amt, "successful"⟩] := by
  have h1 : findUser (verifyPayment st uid tx (.successful amt)).2 uid
      = some { u with balance := u.balance + amt } := by
    show findUser (incBalance st uid amt) uid = _
    exact findUser_incBalance_self st uid amt u hu
  refine ⟨rfl, h1, rfl, ?_, ?_⟩
  · show findUser (incBalance (verifyPayment st uid tx (.successful amt)).2 uid amt) uid = _
    exact findUser_incBalance_self _ uid amt _ h1
  · show ((st.transactions ++ [_]) ++ [_] : List Txn) = _
    rw [List.append_assoc]
    rfl

/-- C9 witness: the amended claim at `stF`. -/
theorem C9_witness :
    (verifyPayment stF 1 "FLW-1" (.successful 100)).1 = .verified 100
    ∧ findUser (verifyPayment stF 1 "FLW-1" (.successful 100)).2 1 = some ⟨1, "alice", 0 + 100⟩
    ∧ (verifyPayment stF 1 "FLW-1" (.successful 100)).2.transactions
        = [] ++ [⟨1, "FLW-1", 100, "successful"⟩]
    ∧ findUser (verifyPayment (verifyPayment stF 1 "FLW-1" (.successful 100)).2 1 "FLW-1"
          (.successful 100)).2 1 = some ⟨1, "alice", 0 + 100 + 100⟩
    ∧ (verifyPayment (verifyPayment stF 1 "FLW-1" (.successful 100)).2 1 "FLW-1"
          (.successful 100)).2.transactions
        = [] ++ [⟨1, "FLW-1", 100, "successful"⟩, ⟨1, "FLW-1", 100, "successful"⟩] :=
  C9_verify_credits_every_call stF 1 "FLW-1" 100 ⟨1, "alice", 0⟩ (by decide)

/-! ### C8, C10: SMM orders -/

theorem smmOrder_stG :
    smmOrder stG 1 42 "http://post" 100 (some svcsA) (some 900)
      = (.placed 900,
         insertOrder (incBalance stG 1 (-((3/2 : ℚ) * (120 / 100) * 100 / 1000)))
           { userId := 1, username := "alice", productName := "IG Likes",
             price := (3/2 : ℚ) * (120 / 100) * 100 / 1000, productLink := "http://post",
             details := "Order ID: " ++ toString 900, otype := "SMM", ostatus := "PENDING" },
         true) := by
  simp only [smmOrder,
    show List.find? (fun s => s.service == 42) svcsA = some ⟨42, "IG Likes", 3/2⟩ from rfl,
    show findUser stG 1 = some ⟨1, "alice", 10⟩ from rfl]
  rw [if_neg (show ¬ ((10 : ℚ) < (3/2 : ℚ) * (120 / 100) * 100 / 1000) from by norm_num)]

/-- C8 counterexample.  At rate 1.5 and quantity 100 the code computes
`1.5 * 1.20 * 100 / 1000 = 0.18` and debits exactly that (balance
10 ↦ 10 − 9/50), while the claimed formula `ceil(rate * (1+markup) *
quantity / 1000)` gives 1: the charge is neither that ceiling nor an
integer. -/
theorem C8_counterexample :
    (smmOrder stG 1 42 "http://post" 100 (some svcsA) (some 900)).1 = .placed 900
    ∧ userBal (smmOrder stG 1 42 "http://post" 100 (some svcsA) (some 900)).2.1 1
        = some (10 - 9/50)
    ∧ ¬ ((9/50 : ℚ) = ((⌈((3/2 : ℚ) * (1 + 20/100) * 100 / 1000)⌉ : ℤ) : ℚ)) := by
  have hceil : (⌈((3/2 : ℚ) * (1 + 20/100) * 100 / 1000)⌉ : ℤ) = 1 := by
    rw [show ((3/2 : ℚ) * (1 + 20/100) * 100 / 1000) = 9/50 by norm_num]
    rw [Int.ceil_eq_iff]
    norm_num
  refine ⟨by rw [smmOrder_stG], ?_, ?_⟩
  · rw [smmOrder_stG]
    show ((findUser (incBalance stG 1 (-((3/2 : ℚ) * (120 / 100) * 100 / 1000))) 1).map
            User.balance) = _
    rw [findUser_incBalance_self stG 1 _ ⟨1, "alice", 10⟩ rfl]
    simp only [Option.map_some', Option.some.injEq]
    norm_num
  · rw [hceil]; norm_num

/-- C8 (amended).  A successful SMM order debits the user by exactly
`rate * 1.20 * quantity / 1000` — no ceiling is applied and the charge is
in general not an integer — and records a PENDING SMM order at that
price. -/
theorem C8_smm_charges_unrounded_price (st : DB) (userId service : Nat) (link : String)
    (quantity : ℚ) (svcs : List SmmService) (sd : SmmService) (provId : Nat) (u : User)
    (hs : svcs.find? (fun s => s.service == service) = some sd)
    (hu : findUser st userId = some u)
    (hb : ¬ u.balance < sd.rate * (120 / 100) * quantity / 1000) :
    (smmOrder st userId service link quantity (some svcs) (some provId)).1 = .placed provId
    ∧ findUser (smmOrder st userId service link quantity (some svcs) (some provId)).2.1 userId
        = some { u with balance := u.balance + -(sd.rate * (120 / 100) * quantity / 1000) }
    ∧ (smmOrder st userId service link quantity (some svcs) (some provId)).2.1.orders
        = st.orders ++ [⟨userId, u.username, sd.name, sd.rate * (120 / 100) * quantity / 1000,
                         link, "Order ID: " ++ toString provId, "SMM", "PENDING"⟩] := by
  have heval : smmOrder st userId service link quantity (some svcs) (some provId)
      = (.placed provId,
         insertOrder (incBalance st userId (-(sd.rate * (120 / 100) * quantity / 1000)))
           { userId := userId, username := u.username, productName := sd.name,
             price := sd.rate * (120 / 100) * quantity / 1000, productLink := link,
             details := "Order ID: " ++ toString provId, otype := "SMM", ostatus := "PENDING" },
         true) := by
    simp only [smmOrder, hs, hu]
    rw [if_neg hb]
  refine ⟨by rw [heval], ?_, by rw [heval]; rfl⟩
  rw [heval]
  show findUser (incBalance st userId (-(sd.rate * (120 / 100) * quantity / 1000))) userId = _
  exact findUser_incBalance_self st userId _ u hu

/-- C8 witness: the amended claim at `stG`. -/
theorem C8_witness :
    (smmOrder stG 1 42 "http://post" 100 (some svcsA) (some 900)).1 = .placed 900
    ∧ findUser (smmOrder stG 1 42 "http://post" 100 (some svcsA) (some 900)).2.1 1
        = some ⟨1, "alice", 10 + -((3/2) * (120 / 100) * 100 / 1000)⟩
    ∧ (smmOrder stG 1 42 "http://post" 100 (some svcsA) (some 900)).2.1.orders
        = [] ++ [⟨1, "alice", "IG Likes", (3/2) * (120 / 100) * 100 / 1000,
                  "http://post", "Order ID: " ++ toString 900, "SMM", "PENDING"⟩] :=
  C8_smm_charges_unrounded_price stG 1 42 "http://post" 100 svcsA ⟨42, "IG Likes", 3/2⟩ 900
    ⟨1, "alice", 10⟩ rfl rfl
    (show ¬ ((10 : ℚ) < (3/2 : ℚ) * (120 / 100) * 100 / 1000) from by norm_num)

/-- C10.  When the service is in the provider catalog but the userId
matches no stored user, the user lookup yields `null`, the balance read
throws, and the route answers 500 before the provider submission, the
debit and the order insert: the returned state is exactly the input state
and no submission was made. -/
theorem C10_smm_unknown_user_500_before_submit (st : DB) (userId service : Nat)
    (link : String) (quantity : ℚ) (svcs : List SmmService) (sd : SmmService)
    (submitResp : Option Nat)
    (hs : svcs.find? (fun s => s.service == service) = some sd)
    (hu : findUser st userId = none) :
    smmOrder st userId service link quantity (some svcs) submitResp
      = (.internalError, st, false) := by
  simp only [smmOrder, hs, hu]

/-- C10 witness: a state with no users at all. -/
theorem C10_witness :
    smmOrder ⟨[], [], [], [], [], 1⟩ 1 42 "http://post" 100 (some svcsA) (some 900)
      = (.internalError, ⟨[], [], [], [], [], 1⟩, false) :=
  C10_smm_unknown_user_500_before_submit ⟨[], [], [], [], [], 1⟩ 1 42 "http://post" 100
    svcsA ⟨42, "IG Likes", 3/2⟩ (some 900) rfl rfl

end MubLog
